import Mathlib

/-!
Verification of `src/content/backend/streaming/user_activity_stream.py`
(the `UserActivityStreamProcessor` class) against its natural-language
specification.

The embedding models:
  * events (the Kafka schema of `define_schema`),
  * the validity filter and windowed aggregates of `process_events`,
  * the Redis side effects of `update_redis_metrics` as an explicit list of
    Redis operations applied to an explicit Redis state,
  * the `try/except` structure of `update_redis_metrics` and
    `forward_to_kafka` together with the micro-batch checkpoint rule
    (`foreachBatch` checkpoints a batch exactly when the batch function
    returns without raising),
  * the watermark / window-lifecycle engine, which is not part of the
    repository (the source only configures Spark's `withWatermark` /
    `window`), modelled from the specification.

Timestamps are seconds since the epoch (`Nat`).
-/

namespace UserActivityStream

/-- An event of the Kafka schema in `define_schema`: every field is nullable.
The timestamp is modelled in seconds; events whose claims we check always
carry a parseable timestamp, kept as a plain `Nat`. -/
structure Event where
  event_id : Option String
  user_id : Option String
  session_id : Option String
  event_type : Option String
  page : Option String
  product_id : Option String
  category_id : Option String
  timestamp : Nat
  deriving DecidableEq, Repr

/-- The validity filter of `process_events`:
`events_df.filter(col("user_id").isNotNull() & col("event_type").isNotNull())`. -/
def isValidEvent (e : Event) : Bool :=
  e.user_id.isSome && e.event_type.isSome

/-- `valid_events` of `process_events`. -/
def validEvents (events : List Event) : List Event :=
  events.filter isValidEvent

/-- Events dropped by the validity filter.  The code keeps no explicit
rejected-events counter; the rejected-events count of a batch is the number
of events the filter in `process_events` drops, i.e. the length of this
list. -/
def rejectedEvents (events : List Event) : List Event :=
  events.filter (fun e => !isValidEvent e)

/-- Modelled from the spec: Spark's `window(col("timestamp"), "5 minutes")`
tumbling-window assignment is not in the repository; per the spec, an event
with `event_time = t` belongs to the window starting at `floor(t/W)*W`. -/
def windowStart (t W : Nat) : Nat :=
  t / W * W

/-- The window size used throughout `process_events`: 5 minutes. -/
def windowSize : Nat := 300

/-- The allowed lateness used throughout `process_events`
(`withWatermark("timestamp", "10 minutes")`): 10 minutes. -/
def allowedLateness : Nat := 600

/-- The `active_users` aggregate of `process_events`:
`valid_events.groupBy(window(timestamp, 5 min), event_type).agg(count("user_id"))`.
Spark's `count("user_id")` counts the rows of the group whose `user_id` is
non-null (it does not deduplicate). -/
def active_users (events : List Event) (w : Nat) (et : Option String) : Nat :=
  ((validEvents events).filter (fun e =>
    windowStart e.timestamp windowSize == w && e.event_type == et &&
      e.user_id.isSome)).length

/-- The spec's words for the active-users metric (for comparison with
`active_users`): the number of distinct `user_id` values among the valid
events of the `(window, event_type)` group. -/
def distinct_users_spec (events : List Event) (w : Nat) (et : Option String) : Nat :=
  (((validEvents events).filter (fun e =>
    windowStart e.timestamp windowSize == w && e.event_type == et)).filterMap
      (fun e => e.user_id)).dedup.length

/-- The `page_views` aggregate of `process_events`: valid events filtered to
`event_type == "page_view"`, grouped by `(window(timestamp, 5 min), page)`,
counted (`view_count`). -/
def page_views (events : List Event) (w : Nat) (pg : Option String) : Nat :=
  ((validEvents events).filter (fun e =>
    e.event_type == some "page_view" && windowStart e.timestamp windowSize == w &&
      e.page == pg)).length

/-- The `product_views` aggregate of `process_events`: valid events filtered
to `event_type == "product_view"`, grouped by `(window, product_id)`,
counted (`view_count`). -/
def product_views (events : List Event) (w : Nat) (pid : Option String) : Nat :=
  ((validEvents events).filter (fun e =>
    e.event_type == some "product_view" && windowStart e.timestamp windowSize == w &&
      e.product_id == pid)).length

/-- The `add_to_cart` aggregate of `process_events`: valid events filtered to
`event_type == "add_to_cart"`, grouped by `(window, product_id)`, counted
(`cart_count`). -/
def add_to_cart (events : List Event) (w : Nat) (pid : Option String) : Nat :=
  ((validEvents events).filter (fun e =>
    e.event_type == some "add_to_cart" && windowStart e.timestamp windowSize == w &&
      e.product_id == pid)).length

/-! ## The Redis cache sink: `update_redis_metrics` -/

/-- A Redis operation issued by `update_redis_metrics`. -/
inductive RedisOp where
  | incrby (key : String) (amount : Nat)
  | expire (key : String) (seconds : Nat)
  | sadd (key : String) (members : List String)
  | zincrby (key : String) (amount : Nat) (member : String)
  deriving DecidableEq, Repr

/-- The Redis state visible to `update_redis_metrics`: integer counters,
plain sets, sorted sets (member scores), and per-key expiries. -/
structure RedisState where
  counters : String → Int
  sets : String → String → Bool
  sortedSets : String → String → Int
  ttl : String → Option Nat

/-- Effect of a single Redis operation on the Redis state. -/
def applyOp (s : RedisState) : RedisOp → RedisState
  | .incrby k n =>
      { s with counters := fun k' => if k' = k then s.counters k' + n else s.counters k' }
  | .expire k sec =>
      { s with ttl := fun k' => if k' = k then some sec else s.ttl k' }
  | .sadd k ms =>
      { s with sets := fun k' m => if k' = k then (s.sets k' m || ms.contains m) else s.sets k' m }
  | .zincrby k n m =>
      { s with sortedSets := fun k' m' =>
          if k' = k ∧ m' = m then s.sortedSets k' m' + n else s.sortedSets k' m' }

/-- Apply a list of Redis operations in order. -/
def applyOps (s : RedisState) (ops : List RedisOp) : RedisState :=
  ops.foldl applyOp s

/-- The key of the per-event-type counter: `f"user_activity:count:{event_type}"`. -/
def counterKey (t : String) : String :=
  "user_activity:count:" ++ t

/-- The distinct event types of a batch, in first-appearance order: the keys
of `pandas_df.groupby("event_type").size()` (pandas drops null keys). -/
def eventTypes (batch : List Event) : List String :=
  (batch.filterMap (fun e => e.event_type)).dedup

/-- How many events of the batch have the given event type: the value of
`pandas_df.groupby("event_type").size()` at that key. -/
def countOfType (batch : List Event) (t : String) : Nat :=
  (batch.filter (fun e => e.event_type == some t)).length

/-- The counter-update loop of `update_redis_metrics`: for each event type,
`incrby` the counter by the group size, then `expire` it for 24 hours. -/
def counterOps (batch : List Event) : List RedisOp :=
  (eventTypes batch).flatMap (fun t =>
    [.incrby (counterKey t) (countOfType batch t), .expire (counterKey t) 86400])

/-- `pandas_df["user_id"].unique().tolist()` restricted to present ids. -/
def userIds (batch : List Event) : List String :=
  (batch.filterMap (fun e => e.user_id)).dedup

/-- The active-users-set update of `update_redis_metrics`: if the batch has
any user ids, `sadd` them to the set and `expire` it for 1 hour. -/
def saddOps (batch : List Event) : List RedisOp :=
  if userIds batch = [] then []
  else [.sadd "user_activity:active_users" (userIds batch),
        .expire "user_activity:active_users" 3600]

/-- The distinct pages among the batch's `page_view` events: the keys of
`pandas_df[pandas_df["event_type"] == "page_view"].groupby("page").size()`
(pandas drops null keys). -/
def pageKeys (batch : List Event) : List String :=
  ((batch.filter (fun e => e.event_type == some "page_view")).filterMap
    (fun e => e.page)).dedup

/-- How many `page_view` events of the batch are for the given page. -/
def pageCount (batch : List Event) (p : String) : Nat :=
  (batch.filter (fun e =>
    e.event_type == some "page_view" && e.page == some p)).length

/-- The popular-pages loop of `update_redis_metrics`: for each page among the
batch's `page_view` events, `zincrby` its sorted-set score by the group size. -/
def pageOps (batch : List Event) : List RedisOp :=
  (pageKeys batch).map (fun p =>
    .zincrby "user_activity:popular_pages" (pageCount batch p) p)

/-- The distinct product ids among the batch's `product_view` events. -/
def productKeys (batch : List Event) : List String :=
  ((batch.filter (fun e => e.event_type == some "product_view")).filterMap
    (fun e => e.product_id)).dedup

/-- How many `product_view` events of the batch are for the given product. -/
def productCount (batch : List Event) (p : String) : Nat :=
  (batch.filter (fun e =>
    e.event_type == some "product_view" && e.product_id == some p)).length

/-- The popular-products loop of `update_redis_metrics`. -/
def productOps (batch : List Event) : List RedisOp :=
  (productKeys batch).map (fun p =>
    .zincrby "user_activity:popular_products" (productCount batch p) p)

/-- All Redis operations issued by one call of `update_redis_metrics`, in
program order.  The `batch_id` argument of the Python function is used only
in a log line, so it does not occur here. -/
def update_redis_metrics_ops (batch : List Event) : List RedisOp :=
  counterOps batch ++ saddOps batch ++ pageOps batch ++ productOps batch

/-- `update_redis_metrics` as a Redis-state transformer (the error-free run:
every Redis call succeeds).  It takes the `batch_id` argument like the
Python function, and like the Python function ignores it except for
logging. -/
def update_redis_metrics (s : RedisState) (batch : List Event) (batch_id : Nat) :
    RedisState :=
  let _ := batch_id
  applyOps s (update_redis_metrics_ops batch)

/-! ## Fault injection: the `try/except` blocks and the checkpoint rule -/

/-- Run the Redis operations of a batch with a fault injected at position
`failAt` (the `failAt`-th Redis call raises; calls before it have already
taken effect, as in the Python function).  Returns the resulting Redis state
and whether the body raised. -/
def runOps (s : RedisState) (ops : List RedisOp) (failAt : Option Nat) :
    RedisState × Bool :=
  match failAt with
  | none => (applyOps s ops, false)
  | some n =>
      if n < ops.length then (applyOps s (ops.take n), true)
      else (applyOps s ops, false)

/-- Whether the body of `update_redis_metrics` raises for this batch and
fault. -/
def redisBodyRaises (batch : List Event) (failAt : Option Nat) : Bool :=
  match failAt with
  | none => false
  | some n => n < (update_redis_metrics_ops batch).length

/-- `update_redis_metrics` with its `try/except`: the body may raise at a
Redis call; the `except Exception` clause catches any exception and only
logs it, so the function returns normally in both branches.  Returns the
Redis state and whether the *function* raised. -/
def update_redis_metrics_try (s : RedisState) (batch : List Event) (batch_id : Nat)
    (failAt : Option Nat) : RedisState × Bool :=
  let _ := batch_id
  match runOps s (update_redis_metrics_ops batch) failAt with
  | (s', true) => (s', false)
  | (s', false) => (s', false)

/-- Whether the body of `forward_to_kafka` raises (a send fails) for this
batch and fault. -/
def kafkaBodyRaises (batch : List Event) (failAt : Option Nat) : Bool :=
  match failAt with
  | none => false
  | some n => n < batch.length

/-- `forward_to_kafka` with its `try/except`: sends each event of the batch,
tagged with the batch id, to the output topic; a fault at position `failAt`
raises after the earlier sends took effect; the `except Exception` clause
catches and logs, so the function returns normally in both branches.
Returns the list of sent `(event, batch_id)` records and whether the
*function* raised. -/
def forward_to_kafka_try (batch : List Event) (batch_id : Nat)
    (failAt : Option Nat) : List (Event × Nat) × Bool :=
  match failAt with
  | none => (batch.map (fun e => (e, batch_id)), false)
  | some n =>
      if n < batch.length then ((batch.take n).map (fun e => (e, batch_id)), false)
      else (batch.map (fun e => (e, batch_id)), false)

/-- `process_batch`: runs `update_redis_metrics` then `forward_to_kafka`.
Returns the Redis state, the sent records, and whether `process_batch`
raised. -/
def process_batch (s : RedisState) (batch : List Event) (batch_id : Nat)
    (redisFailAt kafkaFailAt : Option Nat) :
    RedisState × List (Event × Nat) × Bool :=
  let r := update_redis_metrics_try s batch batch_id redisFailAt
  let k := forward_to_kafka_try batch batch_id kafkaFailAt
  (r.1, k.1, r.2 || k.2)

/-- The micro-batch checkpoint rule of `foreachBatch`: the engine advances
the checkpoint for a batch exactly when the batch function returned without
raising. -/
def checkpointAdvances (s : RedisState) (batch : List Event) (batch_id : Nat)
    (redisFailAt kafkaFailAt : Option Nat) : Bool :=
  !(process_batch s batch batch_id redisFailAt kafkaFailAt).2.2

/-! ## The windowed-aggregation engine

Modelled from the spec: the watermark tracker and the window store
(spec §4.2, §4.3) are Spark Structured Streaming internals; the repository
only configures them (`withWatermark("timestamp", "10 minutes")`,
`window(col("timestamp"), "5 minutes")` in `process_events`). -/

/-- Modelled from the spec: the Window Store / Watermark Tracker state for
one metric pipeline.  `maxEventTime` is the maximum event time observed;
`openWindows` maps open window starts to their accumulator; `closed` lists
the starts of windows already closed; `emittedRows` are the final
`(window_start, aggregate)` snapshots emitted at closure; `lateDropped`
counts events dropped because their window had closed. -/
structure WindowStore where
  maxEventTime : Nat
  openWindows : List (Nat × Nat)
  closed : List Nat
  emittedRows : List (Nat × Nat)
  lateDropped : Nat
  deriving DecidableEq, Repr

/-- Modelled from the spec: the watermark is the maximum observed event time
minus the allowed lateness (truncated at zero before any event). -/
def WindowStore.watermark (ws : WindowStore) : Nat :=
  ws.maxEventTime - allowedLateness

/-- Modelled from the spec: `observe(event_time)` never decreases
`max_event_time_seen`. -/
def WindowStore.observe (ws : WindowStore) (t : Nat) : WindowStore :=
  { ws with maxEventTime := max ws.maxEventTime t }

/-- Increment the accumulator of the window starting at `s`, opening it at 1
if absent. -/
def bumpWindow : List (Nat × Nat) → Nat → List (Nat × Nat)
  | [], s => [(s, 1)]
  | (s', c) :: rest, s =>
      if s' = s then (s', c + 1) :: rest else (s', c) :: bumpWindow rest s

/-- Modelled from the spec: applying one event to the Window Store.  An event
whose window has already closed is neither applied nor re-opens the window;
it increments the late-dropped counter.  Otherwise the window's accumulator
is bumped. -/
def WindowStore.applyEvent (ws : WindowStore) (t : Nat) : WindowStore :=
  let s := windowStart t windowSize
  if s ∈ ws.closed then { ws with lateDropped := ws.lateDropped + 1 }
  else { ws with openWindows := bumpWindow ws.openWindows s }

/-- Modelled from the spec: after a watermark advance, every open window with
`window_end + allowed_lateness ≤ watermark` closes; its final snapshot is
emitted exactly once and it moves to the closed set. -/
def WindowStore.evict (ws : WindowStore) : WindowStore :=
  let isDue := fun (p : Nat × Nat) =>
    p.1 + windowSize + allowedLateness ≤ ws.watermark
  let nowClosed := ws.openWindows.filter (fun p => isDue p)
  { ws with
      openWindows := ws.openWindows.filter (fun p => !isDue p)
      closed := ws.closed ++ nowClosed.map (fun p => p.1)
      emittedRows := ws.emittedRows ++ nowClosed }

/-- Modelled from the spec: processing one batch of event times — advance the
watermark over the whole batch, apply each event's contribution, then evict
newly closed windows. -/
def WindowStore.processBatch (ws : WindowStore) (batch : List Nat) : WindowStore :=
  (batch.foldl WindowStore.applyEvent (batch.foldl WindowStore.observe ws)).evict

/-- The distinct `(window, page)` groups of the `page_views` aggregation
present among the valid `page_view` events. -/
def pageViewRowKeys (events : List Event) : List (Nat × Option String) :=
  (((validEvents events).filter (fun e => e.event_type == some "page_view")).map
    (fun e => (windowStart e.timestamp windowSize, e.page))).dedup

/-- Modelled from the spec: the rows of the `page_views` aggregation the
durable sink has received once the watermark reached `wm` — one upsert per
`(window, page)` group whose `window_end + allowed_lateness ≤ wm`, carrying
the group's final `view_count`.  The closure rule is the Window Store's;
the count is the source's `page_views` aggregate. -/
def emittedPageViewRows (events : List Event) (wm : Nat) :
    List ((Nat × Option String) × Nat) :=
  ((pageViewRowKeys events).filter
    (fun k => k.1 + windowSize + allowedLateness ≤ wm)).map
    (fun k => (k, page_views events k.1 k.2))

/-! ## Concrete inputs used in witnesses and counterexamples -/

/-- A valid `page_view` event with the given user, page and timestamp. -/
def evPV (uid pg : String) (t : Nat) : Event :=
  ⟨none, some uid, none, some "page_view", some pg, none, none, t⟩

/-- A valid `product_view` event with the given user, product and timestamp. -/
def evProd (uid pid : String) (t : Nat) : Event :=
  ⟨none, some uid, none, some "product_view", none, some pid, none, t⟩

/-- An event with no `user_id`: rejected by the filter in `process_events`. -/
def badEv : Event :=
  ⟨none, none, none, some "page_view", some "/home", none, none, 42⟩

/-- The three events of end-to-end scenario 1: `page_view` of `/home` at
00:00:10, 00:02:30 and 00:04:59. -/
def scenarioEvents : List Event :=
  [evPV "u1" "/home" 10, evPV "u2" "/home" 150, evPV "u3" "/home" 299]

/-- The all-empty Redis state. -/
def emptyRedis : RedisState :=
  { counters := fun _ => 0
    sets := fun _ _ => false
    sortedSets := fun _ _ => 0
    ttl := fun _ => none }

/-- A Window Store in which the window `[0, 300)` has already been closed and
its final count emitted, with the watermark far past the window. -/
def closedStore : WindowStore :=
  { maxEventTime := 1200
    openWindows := []
    closed := [0]
    emittedRows := [(0, 3)]
    lateDropped := 0 }

/-! ## Helper lemmas about the Redis sink -/

theorem applyOps_append (s : RedisState) (l1 l2 : List RedisOp) :
    applyOps s (l1 ++ l2) = applyOps (applyOps s l1) l2 :=
  List.foldl_append _ _ _ _

theorem counterKey_inj {t u : String} (h : counterKey t = counterKey u) : t = u := by
  have h2 := congrArg String.data h
  simp only [counterKey, String.data_append] at h2
  exact String.ext (List.append_cancel_left h2)

theorem counters_applyOp_expire (s : RedisState) (k : String) (n : Nat) :
    (applyOp s (.expire k n)).counters = s.counters := rfl

theorem counters_applyOps_saddOps (s : RedisState) (batch : List Event) :
    (applyOps s (saddOps batch)).counters = s.counters := by
  unfold saddOps
  split <;> rfl

theorem counters_applyOps_zincrbys (l : List String) (key : String)
    (cnt : String → Nat) :
    ∀ s : RedisState,
      (applyOps s (l.map (fun p => RedisOp.zincrby key (cnt p) p))).counters
        = s.counters := by
  induction l with
  | nil => intro s; rfl
  | cons p rest ih => intro s; exact ih (applyOp s (.zincrby key (cnt p) p))

theorem sortedSets_applyOps_counterLoop (l : List String) (cnt : String → Nat) :
    ∀ s : RedisState,
      (applyOps s (l.flatMap (fun u =>
        [RedisOp.incrby (counterKey u) (cnt u),
         RedisOp.expire (counterKey u) 86400]))).sortedSets
        = s.sortedSets := by
  induction l with
  | nil => intro s; rfl
  | cons u rest ih =>
      intro s
      exact ih (applyOp (applyOp s (.incrby (counterKey u) (cnt u)))
        (.expire (counterKey u) 86400))

theorem sortedSets_applyOps_saddOps (s : RedisState) (batch : List Event) :
    (applyOps s (saddOps batch)).sortedSets = s.sortedSets := by
  unfold saddOps
  split <;> rfl

theorem sortedSets_applyOps_zincrbys_ne (l : List String) (key key' : String)
    (cnt : String → Nat) (h : key' ≠ key) :
    ∀ s : RedisState,
      (applyOps s (l.map (fun p => RedisOp.zincrby key (cnt p) p))).sortedSets key'
        = s.sortedSets key' := by
  induction l with
  | nil => intro s; rfl
  | cons p rest ih =>
      intro s
      rw [List.map_cons]
      show (applyOps (applyOp s (.zincrby key (cnt p) p))
        (rest.map (fun q => RedisOp.zincrby key (cnt q) q))).sortedSets key'
          = s.sortedSets key'
      rw [ih]
      funext m
      simp only [applyOp]
      rw [if_neg]
      rintro ⟨hk, -⟩
      exact h hk

theorem counters_applyOps_counterLoop (l : List String) (cnt : String → Nat)
    (hl : l.Nodup) (t : String) :
    ∀ s : RedisState,
      (applyOps s (l.flatMap (fun u =>
        [RedisOp.incrby (counterKey u) (cnt u),
         RedisOp.expire (counterKey u) 86400]))).counters (counterKey t)
      = s.counters (counterKey t) + (if t ∈ l then (cnt t : Int) else 0) := by
  induction l with
  | nil => intro s; simp [applyOps]
  | cons u rest ih =>
      intro s
      rcases List.nodup_cons.mp hl with ⟨hu, hrest⟩
      rw [List.flatMap_cons]
      rw [show ([RedisOp.incrby (counterKey u) (cnt u),
        RedisOp.expire (counterKey u) 86400] : List RedisOp) ++
          rest.flatMap (fun v => [RedisOp.incrby (counterKey v) (cnt v),
            RedisOp.expire (counterKey v) 86400])
        = RedisOp.incrby (counterKey u) (cnt u) ::
            RedisOp.expire (counterKey u) 86400 ::
          rest.flatMap (fun v => [RedisOp.incrby (counterKey v) (cnt v),
            RedisOp.expire (counterKey v) 86400]) from rfl]
      show (applyOps (applyOp (applyOp s (.incrby (counterKey u) (cnt u)))
        (.expire (counterKey u) 86400)) _).counters (counterKey t) = _
      rw [ih hrest]
      by_cases htu : t = u
      · subst htu
        have hmem : t ∈ t :: rest := List.mem_cons_self t rest
        have hnot : t ∉ rest := hu
        rw [if_pos hmem, if_neg hnot]
        show (applyOp s (.incrby (counterKey t) (cnt t))).counters (counterKey t) + 0 = _
        simp [applyOp]
      · have hk : counterKey t ≠ counterKey u := fun hc => htu (counterKey_inj hc)
        have : (applyOp (applyOp s (.incrby (counterKey u) (cnt u)))
            (.expire (counterKey u) 86400)).counters (counterKey t)
            = s.counters (counterKey t) := by
          simp [applyOp, if_neg hk]
        rw [this]
        simp [List.mem_cons, htu]

theorem sortedSets_applyOps_zincrbys (l : List String) (key : String)
    (cnt : String → Nat) (hl : l.Nodup) (p : String) :
    ∀ s : RedisState,
      (applyOps s (l.map (fun q => RedisOp.zincrby key (cnt q) q))).sortedSets key p
        = s.sortedSets key p + (if p ∈ l then (cnt p : Int) else 0) := by
  induction l with
  | nil => intro s; simp [applyOps]
  | cons q rest ih =>
      intro s
      rcases List.nodup_cons.mp hl with ⟨hq, hrest⟩
      rw [List.map_cons]
      show (applyOps (applyOp s (.zincrby key (cnt q) q)) _).sortedSets key p = _
      rw [ih hrest]
      by_cases hpq : p = q
      · subst hpq
        rw [if_neg hq, if_pos (List.mem_cons_self p rest)]
        show (applyOp s (.zincrby key (cnt p) p)).sortedSets key p + 0 = _
        simp [applyOp]
      · have hstep : (applyOp s (.zincrby key (cnt q) q)).sortedSets key p
            = s.sortedSets key p := by
          simp only [applyOp]
          rw [if_neg]
          rintro ⟨-, hp⟩
          exact hpq hp
        rw [hstep]
        simp [List.mem_cons, hpq]

theorem countOfType_eq_zero {batch : List Event} {t : String}
    (h : t ∉ eventTypes batch) : countOfType batch t = 0 := by
  unfold countOfType
  rw [List.length_eq_zero, List.filter_eq_nil_iff]
  intro e he hbeq
  rw [beq_iff_eq] at hbeq
  apply h
  unfold eventTypes
  rw [List.mem_dedup]
  exact List.mem_filterMap.mpr ⟨e, he, hbeq⟩

theorem pageCount_eq_zero {batch : List Event} {p : String}
    (h : p ∉ pageKeys batch) : pageCount batch p = 0 := by
  unfold pageCount
  rw [List.length_eq_zero, List.filter_eq_nil_iff]
  intro e he hbeq
  simp only [Bool.and_eq_true, beq_iff_eq] at hbeq
  obtain ⟨h1, h2⟩ := hbeq
  apply h
  unfold pageKeys
  rw [List.mem_dedup]
  exact List.mem_filterMap.mpr
    ⟨e, List.mem_filter.mpr ⟨he, by simp [h1]⟩, h2⟩

theorem productCount_eq_zero {batch : List Event} {p : String}
    (h : p ∉ productKeys batch) : productCount batch p = 0 := by
  unfold productCount
  rw [List.length_eq_zero, List.filter_eq_nil_iff]
  intro e he hbeq
  simp only [Bool.and_eq_true, beq_iff_eq] at hbeq
  obtain ⟨h1, h2⟩ := hbeq
  apply h
  unfold productKeys
  rw [List.mem_dedup]
  exact List.mem_filterMap.mpr
    ⟨e, List.mem_filter.mpr ⟨he, by simp [h1]⟩, h2⟩

/-- One call of `update_redis_metrics` adds the batch's per-type count to the
per-event-type counter — whatever the starting Redis state and whatever the
batch id. -/
theorem counters_after_update (s : RedisState) (batch : List Event) (i : Nat)
    (t : String) :
    (update_redis_metrics s batch i).counters (counterKey t)
      = s.counters (counterKey t) + countOfType batch t := by
  unfold update_redis_metrics update_redis_metrics_ops
  rw [applyOps_append, applyOps_append, applyOps_append]
  rw [show productOps batch = (productKeys batch).map (fun p =>
      RedisOp.zincrby "user_activity:popular_products" (productCount batch p) p)
    from rfl]
  rw [counters_applyOps_zincrbys]
  rw [show pageOps batch = (pageKeys batch).map (fun p =>
      RedisOp.zincrby "user_activity:popular_pages" (pageCount batch p) p)
    from rfl]
  rw [counters_applyOps_zincrbys]
  rw [counters_applyOps_saddOps]
  rw [show counterOps batch = (eventTypes batch).flatMap (fun u =>
      [RedisOp.incrby (counterKey u) (countOfType batch u),
       RedisOp.expire (counterKey u) 86400]) from rfl]
  rw [counters_applyOps_counterLoop (eventTypes batch) (countOfType batch)
    (List.nodup_dedup _) t]
  by_cases hm : t ∈ eventTypes batch
  · rw [if_pos hm]
  · rw [if_neg hm, countOfType_eq_zero hm]
    simp

/-- One call of `update_redis_metrics` adds the batch's `page_view` count for
a page to that page's score in `user_activity:popular_pages`. -/
theorem popular_pages_after_update (s : RedisState) (batch : List Event)
    (i : Nat) (p : String) :
    (update_redis_metrics s batch i).sortedSets "user_activity:popular_pages" p
      = s.sortedSets "user_activity:popular_pages" p + pageCount batch p := by
  unfold update_redis_metrics update_redis_metrics_ops
  rw [applyOps_append, applyOps_append, applyOps_append]
  rw [show productOps batch = (productKeys batch).map (fun q =>
      RedisOp.zincrby "user_activity:popular_products" (productCount batch q) q)
    from rfl]
  rw [sortedSets_applyOps_zincrbys_ne _ _ _ _ (by decide)]
  rw [show pageOps batch = (pageKeys batch).map (fun q =>
      RedisOp.zincrby "user_activity:popular_pages" (pageCount batch q) q)
    from rfl]
  rw [sortedSets_applyOps_zincrbys (pageKeys batch) _ _ (List.nodup_dedup _) p]
  rw [sortedSets_applyOps_saddOps]
  rw [show counterOps batch = (eventTypes batch).flatMap (fun u =>
      [RedisOp.incrby (counterKey u) (countOfType batch u),
       RedisOp.expire (counterKey u) 86400]) from rfl]
  rw [sortedSets_applyOps_counterLoop]
  by_cases hm : p ∈ pageKeys batch
  · rw [if_pos hm]
  · rw [if_neg hm, pageCount_eq_zero hm]
    simp

/-- One call of `update_redis_metrics` adds the batch's `product_view` count
for a product to that product's score in `user_activity:popular_products`. -/
theorem popular_products_after_update (s : RedisState) (batch : List Event)
    (i : Nat) (p : String) :
    (update_redis_metrics s batch i).sortedSets "user_activity:popular_products" p
      = s.sortedSets "user_activity:popular_products" p + productCount batch p := by
  unfold update_redis_metrics update_redis_metrics_ops
  rw [applyOps_append, applyOps_append, applyOps_append]
  rw [show productOps batch = (productKeys batch).map (fun q =>
      RedisOp.zincrby "user_activity:popular_products" (productCount batch q) q)
    from rfl]
  rw [sortedSets_applyOps_zincrbys (productKeys batch) _ _ (List.nodup_dedup _) p]
  rw [show pageOps batch = (pageKeys batch).map (fun q =>
      RedisOp.zincrby "user_activity:popular_pages" (pageCount batch q) q)
    from rfl]
  rw [sortedSets_applyOps_zincrbys_ne _ _ _ _ (by decide)]
  rw [sortedSets_applyOps_saddOps]
  rw [show counterOps batch = (eventTypes batch).flatMap (fun u =>
      [RedisOp.incrby (counterKey u) (countOfType batch u),
       RedisOp.expire (counterKey u) 86400]) from rfl]
  rw [sortedSets_applyOps_counterLoop]
  by_cases hm : p ∈ productKeys batch
  · rw [if_pos hm]
  · rw [if_neg hm, productCount_eq_zero hm]
    simp

/-! ## Helper lemmas about the `try/except` blocks -/

theorem update_redis_metrics_try_snd (s : RedisState) (batch : List Event)
    (i : Nat) (rf : Option Nat) :
    (update_redis_metrics_try s batch i rf).2 = false := by
  unfold update_redis_metrics_try
  split <;> rfl

theorem forward_to_kafka_try_snd (batch : List Event) (i : Nat)
    (kf : Option Nat) :
    (forward_to_kafka_try batch i kf).2 = false := by
  unfold forward_to_kafka_try
  cases kf with
  | none => rfl
  | some n =>
      dsimp only
      split <;> rfl

/-! ## Helper lemmas about the Window Store -/

theorem foldl_observe_proj (batch : List Nat) :
    ∀ ws : WindowStore,
      (batch.foldl WindowStore.observe ws).openWindows = ws.openWindows ∧
      (batch.foldl WindowStore.observe ws).closed = ws.closed ∧
      (batch.foldl WindowStore.observe ws).emittedRows = ws.emittedRows ∧
      (batch.foldl WindowStore.observe ws).lateDropped = ws.lateDropped := by
  induction batch with
  | nil => intro ws; exact ⟨rfl, rfl, rfl, rfl⟩
  | cons t rest ih => intro ws; exact ih (ws.observe t)

theorem bumpWindow_keys_ne (sw : Nat) :
    ∀ (l : List (Nat × Nat)) (s : Nat), s ≠ sw →
      (∀ p ∈ l, p.1 ≠ sw) → ∀ p ∈ bumpWindow l s, p.1 ≠ sw := by
  intro l
  induction l with
  | nil =>
      intro s hs _ p hp
      unfold bumpWindow at hp
      rcases List.mem_singleton.mp hp with h
      rw [h]
      exact hs
  | cons q rest ih =>
      intro s hs hl p hp
      unfold bumpWindow at hp
      by_cases hq : q.1 = s
      · rw [if_pos hq] at hp
        rcases List.mem_cons.mp hp with h | h
        · rw [h]
          exact hq ▸ hs
        · exact hl p (List.mem_cons_of_mem q h)
      · rw [if_neg hq] at hp
        rcases List.mem_cons.mp hp with h | h
        · rw [h]
          exact hl q (List.mem_cons_self q rest)
        · exact ih s hs (fun r hr => hl r (List.mem_cons_of_mem q hr)) p h

theorem applyEvent_closed (ws : WindowStore) (t : Nat) :
    (ws.applyEvent t).closed = ws.closed := by
  unfold WindowStore.applyEvent
  dsimp only
  split <;> rfl

theorem applyEvent_emittedRows (ws : WindowStore) (t : Nat) :
    (ws.applyEvent t).emittedRows = ws.emittedRows := by
  unfold WindowStore.applyEvent
  dsimp only
  split <;> rfl

theorem foldl_applyEvent_props (sw : Nat) (batch : List Nat) :
    ∀ ws : WindowStore, sw ∈ ws.closed → (∀ p ∈ ws.openWindows, p.1 ≠ sw) →
      (batch.foldl WindowStore.applyEvent ws).closed = ws.closed ∧
      (∀ p ∈ (batch.foldl WindowStore.applyEvent ws).openWindows, p.1 ≠ sw) ∧
      (batch.foldl WindowStore.applyEvent ws).emittedRows = ws.emittedRows ∧
      (batch.foldl WindowStore.applyEvent ws).lateDropped
        = ws.lateDropped
          + (batch.filter (fun t => windowStart t windowSize ∈ ws.closed)).length := by
  induction batch with
  | nil =>
      intro ws _ hopen
      exact ⟨rfl, hopen, rfl, rfl⟩
  | cons t rest ih =>
      intro ws hclosed hopen
      rw [List.foldl_cons]
      by_cases hmem : windowStart t windowSize ∈ ws.closed
      · have hstep : ws.applyEvent t = { ws with lateDropped := ws.lateDropped + 1 } := by
          unfold WindowStore.applyEvent
          rw [if_pos hmem]
        rw [hstep]
        obtain ⟨hc, ho, he, hd⟩ := ih { ws with lateDropped := ws.lateDropped + 1 }
          hclosed hopen
        refine ⟨hc, ho, he, ?_⟩
        rw [hd]
        rw [List.filter_cons_of_pos (by simpa using hmem)]
        simp only [List.length_cons]
        omega
      · have hstep : ws.applyEvent t
            = { ws with openWindows := (bumpWindow ws.openWindows (windowStart t windowSize)) } := by
          unfold WindowStore.applyEvent
          rw [if_neg hmem]
        rw [hstep]
        have hsne : windowStart t windowSize ≠ sw := fun h => hmem (h ▸ hclosed)
        obtain ⟨hc, ho, he, hd⟩ := ih
          { ws with openWindows := (bumpWindow ws.openWindows (windowStart t windowSize)) }
          hclosed (bumpWindow_keys_ne sw ws.openWindows _ hsne hopen)
        refine ⟨hc, ho, he, ?_⟩
        rw [hd]
        rw [List.filter_cons_of_neg (by simpa using hmem)]

theorem evict_props (ws : WindowStore) (sw : Nat) (hclosed : sw ∈ ws.closed)
    (hopen : ∀ p ∈ ws.openWindows, p.1 ≠ sw) :
    sw ∈ ws.evict.closed ∧
    (∀ p ∈ ws.evict.openWindows, p.1 ≠ sw) ∧
    (ws.evict.emittedRows.filter (fun r => r.1 == sw)
      = ws.emittedRows.filter (fun r => r.1 == sw)) ∧
    ws.evict.lateDropped = ws.lateDropped := by
  refine ⟨?_, ?_, ?_, rfl⟩
  · exact List.mem_append_left _ hclosed
  · intro p hp
    exact hopen p (List.mem_filter.mp hp).1
  · show (ws.emittedRows ++ _).filter (fun r => r.1 == sw) = _
    rw [List.filter_append]
    rw [show (ws.openWindows.filter (fun p =>
        p.1 + windowSize + allowedLateness ≤ ws.watermark)).filter
          (fun r => r.1 == sw) = [] from ?_]
    · rw [List.append_nil]
    · rw [List.filter_eq_nil_iff]
      intro p hp hbeq
      exact hopen p (List.mem_filter.mp hp).1 (by rwa [beq_iff_eq] at hbeq)

/-! ## Claims -/

/-- C1 is false of the code: `update_redis_metrics` does not reject replayed
batch ids.  Delivering the same `(batch, batch_id)` a second time changes the
`page_view` counter (it becomes 2 instead of staying 1). -/
theorem C1_counterexample_replay_changes_counter :
    (update_redis_metrics (update_redis_metrics emptyRedis [evPV "u1" "/home" 10] 7)
        [evPV "u1" "/home" 10] 7).counters (counterKey "page_view")
      ≠ (update_redis_metrics emptyRedis [evPV "u1" "/home" 10] 7).counters
          (counterKey "page_view") := by
  rw [counters_after_update, counters_after_update]
  decide

/-- C1 (amended): `update_redis_metrics` keeps no record of applied batch ids
(the `batch_id` argument is only logged), so re-running it with a previously
applied `(batch_df, batch_id)` re-applies every increment: after the replay
each event-type counter and each sorted-set score has grown by twice the
batch's count instead of staying unchanged. -/
theorem C1_amended_replay_reapplies_increments (s : RedisState)
    (batch : List Event) (i : Nat) (t p q : String) :
    (update_redis_metrics (update_redis_metrics s batch i) batch i).counters
        (counterKey t)
      = s.counters (counterKey t) + 2 * (countOfType batch t : Int) ∧
    (update_redis_metrics (update_redis_metrics s batch i) batch i).sortedSets
        "user_activity:popular_pages" p
      = s.sortedSets "user_activity:popular_pages" p + 2 * (pageCount batch p : Int) ∧
    (update_redis_metrics (update_redis_metrics s batch i) batch i).sortedSets
        "user_activity:popular_products" q
      = s.sortedSets "user_activity:popular_products" q
        + 2 * (productCount batch q : Int) := by
  refine ⟨?_, ?_, ?_⟩
  · rw [counters_after_update, counters_after_update]
    ring
  · rw [popular_pages_after_update, popular_pages_after_update]
    ring
  · rw [popular_products_after_update, popular_products_after_update]
    ring

/-- C2 is false of the code: with a fault injected at the first Redis call,
the body of `update_redis_metrics` raises, yet `process_batch` completes
normally and the checkpoint advances — the error is silently swallowed. -/
theorem C2_counterexample_failed_sink_still_checkpoints :
    redisBodyRaises [evPV "u1" "/home" 10] (some 0) = true ∧
    (process_batch emptyRedis [evPV "u1" "/home" 10] 3 (some 0) none).2.2 = false ∧
    checkpointAdvances emptyRedis [evPV "u1" "/home" 10] 3 (some 0) none = true := by
  decide

/-- C2 (amended): `update_redis_metrics` and `forward_to_kafka` both wrap
their bodies in `try/except Exception` blocks that catch every error and only
log it, so `process_batch` never raises and the checkpoint always advances,
whether or not a sink delivery failed. -/
theorem C2_amended_sink_errors_swallowed (s : RedisState) (batch : List Event)
    (i : Nat) (rf kf : Option Nat) :
    (process_batch s batch i rf kf).2.2 = false ∧
    checkpointAdvances s batch i rf kf = true := by
  have hmain : (process_batch s batch i rf kf).2.2 = false := by
    show ((update_redis_metrics_try s batch i rf).2
      || (forward_to_kafka_try batch i kf).2) = false
    rw [update_redis_metrics_try_snd, forward_to_kafka_try_snd]
    rfl
  refine ⟨hmain, ?_⟩
  unfold checkpointAdvances
  rw [hmain]
  rfl

/-- C3: the value the code writes as `active_users` is `count("user_id")`
— the number of events of the `(window, event_type)` group — not the number
of distinct users: with two `page_view` events by the same user `u1` in the
window `[0, 300)`, the code computes `active_users = 2` while the distinct
user count is 1. -/
theorem C3_active_users_counts_events_not_distinct_users :
    active_users [evPV "u1" "/home" 10, evPV "u1" "/about" 20] 0
        (some "page_view") = 2 ∧
    distinct_users_spec [evPV "u1" "/home" 10, evPV "u1" "/about" 20] 0
        (some "page_view") = 1 := by
  decide

/-- C4: an event whose `user_id` or `event_type` is absent is rejected by the
filter of `process_events`: the rejected-events count rises by exactly one,
`valid_events` is unchanged, and no window aggregate of any of the four
metrics is affected. -/
theorem C4_invalid_event_rejected_without_aggregate_effect
    (events : List Event) (e : Event)
    (h : e.user_id = none ∨ e.event_type = none) :
    (rejectedEvents (events ++ [e])).length = (rejectedEvents events).length + 1 ∧
    validEvents (events ++ [e]) = validEvents events ∧
    (∀ w et, active_users (events ++ [e]) w et = active_users events w et) ∧
    (∀ w pg, page_views (events ++ [e]) w pg = page_views events w pg) ∧
    (∀ w pid, product_views (events ++ [e]) w pid = product_views events w pid) ∧
    (∀ w pid, add_to_cart (events ++ [e]) w pid = add_to_cart events w pid) := by
  have hv : isValidEvent e = false := by
    rcases h with h | h <;> simp [isValidEvent, h]
  have hval : validEvents (events ++ [e]) = validEvents events := by
    unfold validEvents
    rw [List.filter_append]
    simp [hv]
  refine ⟨?_, hval, ?_, ?_, ?_, ?_⟩
  · unfold rejectedEvents
    rw [List.filter_append]
    simp [hv]
  · intro w et
    unfold active_users
    rw [hval]
  · intro w pg
    unfold page_views
    rw [hval]
  · intro w pid
    unfold product_views
    rw [hval]
  · intro w pid
    unfold add_to_cart
    rw [hval]

/-- Witness for C4 at a concrete input: an event with missing `user_id`. -/
theorem C4_witness :
    (badEv.user_id = none ∨ badEv.event_type = none) ∧
    (rejectedEvents ([] ++ [badEv])).length = (rejectedEvents []).length + 1 ∧
    validEvents ([] ++ [badEv]) = validEvents [] :=
  ⟨Or.inl rfl,
   (C4_invalid_event_rejected_without_aggregate_effect [] badEv (Or.inl rfl)).1,
   (C4_invalid_event_rejected_without_aggregate_effect [] badEv (Or.inl rfl)).2.1⟩

/-- C5: once a window has been closed (it is in the closed set and no open
state remains for it), no later batch mutates or reopens it: after any
further batch it is still closed, still absent from the open set, its emitted
rows are unchanged, and the late-dropped counter has grown by exactly the
number of batch events whose window had closed.  (Window lifecycle modelled
from the spec; the repository only configures Spark's watermark.) -/
theorem C5_closed_window_immutable (ws : WindowStore) (sw : Nat)
    (batch : List Nat) (hclosed : sw ∈ ws.closed)
    (hopen : ∀ p ∈ ws.openWindows, p.1 ≠ sw) :
    sw ∈ (ws.processBatch batch).closed ∧
    (∀ p ∈ (ws.processBatch batch).openWindows, p.1 ≠ sw) ∧
    ((ws.processBatch batch).emittedRows.filter (fun r => r.1 == sw)
      = ws.emittedRows.filter (fun r => r.1 == sw)) ∧
    (ws.processBatch batch).lateDropped
      = ws.lateDropped
        + (batch.filter (fun t => windowStart t windowSize ∈ ws.closed)).length := by
  obtain ⟨ho1, hc1, he1, hd1⟩ := foldl_observe_proj batch ws
  obtain ⟨hc2, ho2, he2, hd2⟩ := foldl_applyEvent_props sw batch
    (batch.foldl WindowStore.observe ws) (hc1 ▸ hclosed)
    (fun p hp => hopen p (ho1 ▸ hp))
  obtain ⟨hc3, ho3, he3, hd3⟩ := evict_props
    (batch.foldl WindowStore.applyEvent (batch.foldl WindowStore.observe ws)) sw
    (by rw [hc2, hc1]; exact hclosed) ho2
  unfold WindowStore.processBatch
  refine ⟨hc3, ho3, ?_, ?_⟩
  · rw [he3, he2, he1]
  · rw [hd3, hd2, hd1, hc1]

/-- Witness for C5 at a concrete input: a store whose window `[0, 300)` is
closed, hit by a batch with a late event at `t = 10`. -/
theorem C5_witness :
    (0 ∈ closedStore.closed) ∧ (∀ p ∈ closedStore.openWindows, p.1 ≠ 0) ∧
    (0 ∈ (closedStore.processBatch [10]).closed ∧
     (∀ p ∈ (closedStore.processBatch [10]).openWindows, p.1 ≠ 0) ∧
     ((closedStore.processBatch [10]).emittedRows.filter (fun r => r.1 == 0)
       = closedStore.emittedRows.filter (fun r => r.1 == 0)) ∧
     (closedStore.processBatch [10]).lateDropped
       = closedStore.lateDropped
         + (([10] : List Nat).filter
             (fun t => windowStart t windowSize ∈ closedStore.closed)).length) :=
  ⟨by decide, by decide,
   C5_closed_window_immutable closedStore 0 [10] (by decide) (by decide)⟩

/-- C6: tumbling-window assignment — for window size `W > 0`, an event with
`event_time = t` lies in the window starting at `floor(t/W)*W` (aligned,
containing `t`), and that window is the only aligned window containing `t`;
every metric pipeline of `process_events` groups by this `windowStart`. -/
theorem C6_tumbling_window_assignment_unique (t W : Nat) (hW : 0 < W) :
    windowStart t W % W = 0 ∧
    windowStart t W ≤ t ∧
    t < windowStart t W + W ∧
    (∀ s, s % W = 0 → s ≤ t → t < s + W → s = windowStart t W) := by
  refine ⟨Nat.mul_mod_left _ _, Nat.div_mul_le_self t W, ?_, ?_⟩
  · show t < t / W * W + W
    conv_lhs => rw [← Nat.div_add_mod' t W]
    exact Nat.add_lt_add_left (Nat.mod_lt t hW) _
  · intro s hs hle hlt
    obtain ⟨q, rfl⟩ := Nat.dvd_of_mod_eq_zero hs
    have h1 : q * W ≤ t := by rwa [Nat.mul_comm] at hle
    have h2 : t < (q + 1) * W := by
      rw [Nat.add_one_mul]
      rwa [Nat.mul_comm W q] at hlt
    have hq := Nat.div_eq_of_lt_le h1 h2
    unfold windowStart
    rw [hq, Nat.mul_comm]

/-- Witness for C6 at a concrete input: `t = 444`, `W = 300`. -/
theorem C6_witness :
    0 < 300 ∧
    (windowStart 444 300 % 300 = 0 ∧
     windowStart 444 300 ≤ 444 ∧
     444 < windowStart 444 300 + 300 ∧
     (∀ s, s % 300 = 0 → s ≤ 444 → 444 < s + 300 → s = windowStart 444 300)) :=
  ⟨by decide, C6_tumbling_window_assignment_unique 444 300 (by decide)⟩

/-- C7: watermark monotonicity — over any sequence of `observe` calls,
including out-of-order event times, the watermark never decreases, and an
`observe` with an event time no larger than the maximum seen leaves the
watermark exactly unchanged.  (Watermark tracker modelled from the spec; the
repository only configures Spark's `withWatermark`.) -/
theorem C7_watermark_monotone (ws : WindowStore) (batch : List Nat) :
    ws.watermark ≤ (batch.foldl WindowStore.observe ws).watermark ∧
    (∀ t, t ≤ ws.maxEventTime → (ws.observe t).watermark = ws.watermark) := by
  constructor
  · have hm : ws.maxEventTime ≤ (batch.foldl WindowStore.observe ws).maxEventTime := by
      induction batch generalizing ws with
      | nil => exact le_refl _
      | cons t rest ih => exact le_trans (Nat.le_max_left _ _) (ih (ws.observe t))
    exact Nat.sub_le_sub_right hm _
  · intro t ht
    unfold WindowStore.observe WindowStore.watermark
    rw [Nat.max_eq_left ht]

/-- Witness for C7 at a concrete input: an out-of-order batch and an
`observe` of an earlier event time. -/
theorem C7_witness :
    closedStore.watermark
      ≤ (([1500, 5, 100] : List Nat).foldl WindowStore.observe closedStore).watermark ∧
    100 ≤ closedStore.maxEventTime ∧
    (closedStore.observe 100).watermark = closedStore.watermark :=
  ⟨(C7_watermark_monotone closedStore [1500, 5, 100]).1,
   by decide,
   (C7_watermark_monotone closedStore []).2 100 (by decide)⟩

/-- C8: end-to-end page-view aggregation — the three scenario events (pages
`/home` at 00:00:10, 00:02:30, 00:04:59) all fall in the window `[0, 300)`;
once the watermark passes `00:05 + allowed_lateness` (900 s), the durable
sink receives exactly one upsert for `([0, 300), "/home")`, with
`view_count = 3`.  (Emission-on-closure modelled from the spec; the count is
the source's `page_views` aggregate.) -/
theorem C8_page_view_window_single_upsert (wm : Nat)
    (h : windowSize + allowedLateness < wm) :
    emittedPageViewRows scenarioEvents wm = [((0, some "/home"), 3)] := by
  unfold emittedPageViewRows
  rw [show pageViewRowKeys scenarioEvents = [(0, some "/home")] from by decide]
  have hc : (0 : Nat) + windowSize + allowedLateness ≤ wm := by omega
  rw [List.filter_cons_of_pos (by simpa using hc), List.filter_nil]
  rw [List.map_cons, List.map_nil]
  rw [show page_views scenarioEvents 0 (some "/home") = 3 from by decide]

/-- Witness for C8 at a concrete watermark, 901 s. -/
theorem C8_witness :
    windowSize + allowedLateness < 901 ∧
    emittedPageViewRows scenarioEvents 901 = [((0, some "/home"), 3)] :=
  ⟨by decide, C8_page_view_window_single_upsert 901 (by decide)⟩

/-- C9: per-batch ranking increments are type-filtered — one call of
`update_redis_metrics` raises the `user_activity:popular_pages` score of a
page `p` by exactly the number of `page_view` events for `p` in the batch,
and the `user_activity:popular_products` score of a product `q` by exactly
the number of `product_view` events for `q`; since the equalities hold for
every batch, events of any other type change neither ranking. -/
theorem C9_ranking_increments_type_filtered (s : RedisState)
    (batch : List Event) (i : Nat) (p q : String) :
    (update_redis_metrics s batch i).sortedSets "user_activity:popular_pages" p
      = s.sortedSets "user_activity:popular_pages" p + pageCount batch p ∧
    (update_redis_metrics s batch i).sortedSets "user_activity:popular_products" q
      = s.sortedSets "user_activity:popular_products" q + productCount batch q :=
  ⟨popular_pages_after_update s batch i p,
   popular_products_after_update s batch i q⟩

/-- C10: an empty batch is a complete no-op at the cache sink —
`update_redis_metrics` issues no Redis operation at all and leaves the
entire cache state unchanged. -/
theorem C10_empty_batch_noop (s : RedisState) (i : Nat) :
    update_redis_metrics_ops [] = [] ∧ update_redis_metrics s [] i = s :=
  ⟨rfl, rfl⟩

end UserActivityStream
